import Mathlib

/-!
Shallow embedding of `mongo_connector/doc_managers/formatters.py`.

Python documents are modelled by the inductive type `Value`; Python `dict`s
are association lists in insertion order (real Python dicts have distinct
keys).  Python exceptions are modelled by `Except PyErr`.  Strings are Lean
`String`s; `str.startswith` and slicing are modelled on the underlying
character lists.

Runtime types that no claim exercises (regular expressions, binary blobs,
UUIDs) are left out of the `Value` universe; every branch of the source that
handles a modelled runtime type is translated.
-/

/-- Python exceptions that the translated code can raise:
`valueError` from the NaN/infinity checks in `transform_value`,
`typeError` from the flattener's root-prefix line, which concatenates the
uncalled bound method `DataType.prefix` with a string, and
`unboundLocal` from the default formatter's kernel, which reads `new_key`
without it ever having been assigned. -/
inductive PyErr
  | valueError (msg : String)
  | typeError
  | unboundLocal
deriving DecidableEq

/-- Shape of a Python float as far as the source inspects it: `isnan` and
`isinf` are the only observations made, so only the three kinds matter. -/
inductive FKind
  | fin
  | nan
  | inf
deriving DecidableEq

/-- A Python runtime value as seen by the formatters: booleans, ints/longs,
floats, strings, `None`, `datetime.datetime`, lists, and dicts
(association lists in insertion order). -/
inductive Value
  | vBool (b : Bool)
  | vInt (n : Int)
  | vFloat (k : FKind)
  | vStr (s : String)
  | vNone
  | vDatetime (t : Nat)
  | vList (xs : List Value)
  | vDict (fields : List (String × Value))

/-- Python `key.startswith(p)`. -/
def pyStartsWith (key p : String) : Bool :=
  p.data.isPrefixOf key.data

/-- Python `key[len(p):]`. -/
def pyDropAfter (key p : String) : String :=
  ⟨key.data.drop p.data.length⟩

/-- Python `dict` insertion: assigning to an existing key updates the value
in place (keeping the key's position), otherwise the pair is appended. -/
def pyDictInsert (m : List (String × Value)) (k : String) (v : Value) :
    List (String × Value) :=
  if m.any (fun p => p.1 == k) then
    m.map (fun p => if p.1 == k then (p.1, v) else p)
  else
    m ++ [(k, v)]

/-- Python `dict(pairs)`: later values win, keys keep first-insertion order. -/
def pyDict (ps : List (String × Value)) : List (String × Value) :=
  ps.foldl (fun m p => pyDictInsert m p.1 p.2) []

/-- Python `".".join(path)`. -/
def joinPath : List String → String
  | [] => ""
  | [k] => k
  | k :: rest => k ++ "." ++ joinPath rest

/-- The `DataType` enumeration of the source, in declaration order. -/
inductive DataType
  | BOOL
  | LONG
  | DOUBLE
  | STRING
  | DICT
  | DATETIME
  | GEOPOINT
  | UNKNOWN
deriving DecidableEq

/-- `DataType.__str__`: the canonical lowercase name, empty for `UNKNOWN`
(the source's `.get(self, "")` default is unreachable for enum members). -/
def DataType.toStr : DataType → String
  | .BOOL => "bool"
  | .LONG => "long"
  | .DOUBLE => "double"
  | .STRING => "string"
  | .DICT => "object"
  | .DATETIME => "datetime"
  | .GEOPOINT => "geopoint"
  | .UNKNOWN => ""

/-- `DataType.fromStr`: dictionary lookup keyed by the canonical name, with
default `UNKNOWN` for any other string. -/
def DataType.fromStr (typeStr : String) : DataType :=
  if typeStr = "bool" then .BOOL
  else if typeStr = "long" then .LONG
  else if typeStr = "double" then .DOUBLE
  else if typeStr = "string" then .STRING
  else if typeStr = "object" then .DICT
  else if typeStr = "datetime" then .DATETIME
  else if typeStr = "geopoint" then .GEOPOINT
  else if typeStr = "" then .UNKNOWN
  else .UNKNOWN

/-- `DataType.prefix`: `"" if self == DataType.UNKNOWN else str(self) + "_"`.
Named `toPrefix` here. -/
def DataType.toPrefix (t : DataType) : String :=
  if t = .UNKNOWN then "" else t.toStr ++ "_"

/-- Python `value.keys()` of a dict. -/
def pyKeys (d : List (String × Value)) : List String :=
  d.map Prod.fst

/-- `DataType.isGeoPoint`:
`len(value.keys()) == 2 and 'lat' in value and 'lon' in value`. -/
def DataType.isGeoPoint (d : List (String × Value)) : Bool :=
  (pyKeys d).length == 2 && (pyKeys d).contains "lat" && (pyKeys d).contains "lon"

/-- `DataType.typeForDictValue`. -/
def DataType.typeForDictValue (d : List (String × Value)) : DataType :=
  if DataType.isGeoPoint d then .GEOPOINT else .DICT

/-- `DataType.forValue`: dicts go through `typeForDictValue`; lists defer to
`value[0]`, whose `IndexError` on an empty list is caught by the bare
`except` and turned into `UNKNOWN`; scalars are looked up by runtime type,
and a `KeyError` for an unmapped type (such as `NoneType`) is likewise
caught and turned into `UNKNOWN`. -/
def DataType.forValue : Value → DataType
  | .vDict d => DataType.typeForDictValue d
  | .vList [] => .UNKNOWN
  | .vList (v :: _) => DataType.forValue v
  | .vBool _ => .BOOL
  | .vInt _ => .LONG
  | .vFloat _ => .DOUBLE
  | .vStr _ => .STRING
  | .vDatetime _ => .DATETIME
  | .vNone => .UNKNOWN

/-- Enumeration of `DataType` in declaration order, the order in which
`for value_type in DataType` iterates. -/
def DataType.all : List DataType :=
  [.BOOL, .LONG, .DOUBLE, .STRING, .DICT, .DATETIME, .GEOPOINT, .UNKNOWN]

/-- Loop body of `DataType.attributeNameFromKey`. -/
def DataType.attrGo : List DataType → String → String
  | [], key => key
  | t :: ts, key =>
    if pyStartsWith key (DataType.toPrefix t) then pyDropAfter key (DataType.toPrefix t)
    else DataType.attrGo ts key

/-- `DataType.attributeNameFromKey`: first enum member whose prefix starts
the key wins; the trailing `return key` of the source is kept although
`UNKNOWN`'s empty prefix always matches first. -/
def DataType.attributeNameFromKey (key : String) : String :=
  DataType.attrGo DataType.all key

/-- Result of running a Python generator to completion: the key/value pairs
it yielded before finishing or before an exception, and the exception if one
was raised. -/
structure Gen where
  items : List (String × Value)
  err : Option PyErr

/-- Chaining two generator runs: if the first raised, the second never runs. -/
def Gen.append (a b : Gen) : Gen :=
  match a.err with
  | some _ => a
  | none => ⟨a.items ++ b.items, b.err⟩

/-- Tests `isnan(value)` for the values that reach the numeric branch. -/
def pyIsNan : Value → Bool
  | .vFloat .nan => true
  | _ => false

/-- Tests `isinf(value)` for the values that reach the numeric branch. -/
def pyIsInf : Value → Bool
  | .vFloat .inf => true
  | _ => false

/-- The `isinstance(value, (int, long, float))` branch of `transform_value`:
`ValueError("nan")` on NaN, `ValueError("inf")` on infinity, otherwise the
value itself unchanged.  Python booleans are `int` instances, so `vBool`
values are routed here too. -/
def numericNormalize (v : Value) : Except PyErr Value :=
  if pyIsNan v then .error (.valueError "nan")
  else if pyIsInf v then .error (.valueError "inf")
  else .ok v

namespace DefaultDocumentFormatter

mutual

/-- `DefaultDocumentFormatter.transform_value`.  Dicts recurse through
`self.format_document(value, False)` (whose kernel, with `first_call`
false, yields each surviving pair unprefixed and is collected by `dict`),
lists map `transform_value` over their elements (the first `ValueError`
propagates), booleans/ints/floats take the numeric branch, datetimes and
`None` pass through, and strings hit the final `unicode(value)` fallback,
which is the identity on them. -/
def transform_value : Value → Except PyErr Value
  | .vBool b => numericNormalize (.vBool b)
  | .vInt n => numericNormalize (.vInt n)
  | .vFloat k => numericNormalize (.vFloat k)
  | .vStr s => .ok (.vStr s)
  | .vNone => .ok .vNone
  | .vDatetime t => .ok (.vDatetime t)
  | .vList xs => do
    let nxs ← transformList xs
    .ok (.vList nxs)
  | .vDict d => .ok (.vDict (pyDict (transformFields d)))

/-- The list comprehension `[self.transform_value(v) for v in value]`. -/
def transformList : List Value → Except PyErr (List Value)
  | [] => .ok []
  | v :: vs => do
    let nv ← transform_value v
    let nvs ← transformList vs
    .ok (nv :: nvs)

/-- The kernel of `format_document` with `first_call=False`, composed with
`transform_element`: each pair whose value transforms successfully is
yielded under its own key, a pair whose transformation raises `ValueError`
is dropped (with a logged warning). -/
def transformFields : List (String × Value) → List (String × Value)
  | [] => []
  | (k, v) :: rest =>
    match transform_value v with
    | .ok nv => (k, nv) :: transformFields rest
    | .error _ => transformFields rest

end

/-- The kernel of `format_document` with `first_call=True`, composed with
`transform_element` and the closing `dict(...)` call.  The state argument
models the Python local `new_key`, which persists across loop iterations:
when the transformed key already starts with the computed prefix the source
never assigns `new_key`, so the `yield` reads either the value left over
from a previous iteration or, on the first such iteration, raises
`UnboundLocalError`. -/
def formatTop : List (String × Value) → Option String → Except PyErr (List (String × Value))
  | [], _ => .ok []
  | (k, v) :: rest, st =>
    match transform_value v with
    | .error _ => formatTop rest st
    | .ok nv =>
      let pr := DataType.toPrefix (DataType.forValue nv)
      let st' := if pyStartsWith k pr then st else some (pr ++ k)
      match st' with
      | none => .error .unboundLocal
      | some nk => do
        let tail ← formatTop rest st'
        .ok ((nk, nv) :: tail)

/-- `DefaultDocumentFormatter.format_document(document)` (top-level call,
`first_call=True`). -/
def format_document (doc : List (String × Value)) : Except PyErr (List (String × Value)) := do
  let items ← formatTop doc none
  .ok (pyDict items)

end DefaultDocumentFormatter

namespace DocumentFlattener

mutual

/-- `DocumentFlattener.transform_element`.  Lists recurse element-wise under
the synthetic key `"%s.%s" % (key, index)`; dicts are fully formatted by
`self.format_document(value)` (so an exception from it propagates before
anything is yielded) and the resulting dict is re-keyed under
`"%s.%s" % (key, doc_key)`; anything else is yielded as
`(key, self.transform_value(value))` — note that, unlike the default
formatter's `transform_element`, no `ValueError` is caught here. -/
def transform_element (key : String) (v : Value) : Gen :=
  match v with
  | .vList xs => transformListElems key 0 xs
  | .vDict d =>
    match flatten [] d with
    | ⟨items, none⟩ => ⟨(pyDict items).map (fun p => (key ++ "." ++ p.1, p.2)), none⟩
    | ⟨_, some e⟩ => ⟨[], some e⟩
  | v =>
    match DefaultDocumentFormatter.transform_value v with
    | .ok nv => ⟨[(key, nv)], none⟩
    | .error e => ⟨[], some e⟩

/-- The `for li, lv in enumerate(value)` loop of `transform_element`. -/
def transformListElems (key : String) (i : Nat) (xs : List Value) : Gen :=
  match xs with
  | [] => ⟨[], none⟩
  | v :: vs =>
    Gen.append (transform_element (key ++ "." ++ toString i) v)
      (transformListElems key (i + 1) vs)

/-- The `flatten(doc, path)` generator of `DocumentFlattener.format_document`.
Dict-valued fields push their key onto the path and recurse; any other field
runs `transform_element` and re-keys its yields.  At the top level
(`path` empty) the source executes
`new_key = DataType.forValue(new_v).prefix + new_k`, which concatenates the
uncalled bound method `prefix` with a string and therefore raises
`TypeError` as soon as the first pair is yielded; with no pair yielded the
generator's own exception, if any, propagates instead.  At deeper levels
the yield is `"%s.%s" % (path_string, new_k)` with no prefixing. -/
def flatten (path : List String) (doc : List (String × Value)) : Gen :=
  match doc with
  | [] => ⟨[], none⟩
  | (k, v) :: rest =>
    match v with
    | .vDict d => Gen.append (flatten (path ++ [k]) d) (flatten path rest)
    | w =>
      let g := transform_element k w
      if path.isEmpty then
        match g.items with
        | [] =>
          match g.err with
          | some e => ⟨[], some e⟩
          | none => flatten path rest
        | _ :: _ => ⟨[], some .typeError⟩
      else
        Gen.append
          ⟨g.items.map (fun p => (joinPath path ++ "." ++ p.1, p.2)), g.err⟩
          (flatten path rest)

end

/-- `dict(flatten(document, []))`: collects the generator's yields, or
re-raises its exception. -/
def flattenRun (doc : List (String × Value)) : Except PyErr (List (String × Value)) :=
  match flatten [] doc with
  | ⟨items, none⟩ => .ok (pyDict items)
  | ⟨_, some e⟩ => .error e

/-- `DocumentFlattener.format_document(document)`. -/
def format_document (doc : List (String × Value)) : Except PyErr (List (String × Value)) :=
  flattenRun doc

end DocumentFlattener

namespace DocumentFlattenerSpec

mutual

/-- Modelled from the spec: `DocumentFlattener.transform_element` exactly as
in the source, but recursing into the spec-corrected `format_document`
below.  The spec (design note on the deep-flattening root-prefix path) says
the uncalled `prefix` in the source is an apparent defect and that a correct
reimplementation calls `classify(value).prefix()`; this mirror makes only
that change. -/
def transform_element (key : String) (v : Value) : Gen :=
  match v with
  | .vList xs => transformListElems key 0 xs
  | .vDict d =>
    match flatten [] d with
    | ⟨items, none⟩ => ⟨(pyDict items).map (fun p => (key ++ "." ++ p.1, p.2)), none⟩
    | ⟨_, some e⟩ => ⟨[], some e⟩
  | v =>
    match DefaultDocumentFormatter.transform_value v with
    | .ok nv => ⟨[(key, nv)], none⟩
    | .error e => ⟨[], some e⟩

/-- Modelled from the spec: enumeration loop, unchanged from the source. -/
def transformListElems (key : String) (i : Nat) (xs : List Value) : Gen :=
  match xs with
  | [] => ⟨[], none⟩
  | v :: vs =>
    Gen.append (transform_element (key ++ "." ++ toString i) v)
      (transformListElems key (i + 1) vs)

/-- Modelled from the spec: the `flatten` generator with the root-prefix
line corrected to call the method, i.e.
`new_key = DataType.forValue(new_v).prefix() + new_k`; every other line is
as in the source. -/
def flatten (path : List String) (doc : List (String × Value)) : Gen :=
  match doc with
  | [] => ⟨[], none⟩
  | (k, v) :: rest =>
    match v with
    | .vDict d => Gen.append (flatten (path ++ [k]) d) (flatten path rest)
    | w =>
      let g := transform_element k w
      if path.isEmpty then
        Gen.append
          ⟨g.items.map (fun p => (DataType.toPrefix (DataType.forValue p.2) ++ p.1, p.2)), g.err⟩
          (flatten path rest)
      else
        Gen.append
          ⟨g.items.map (fun p => (joinPath path ++ "." ++ p.1, p.2)), g.err⟩
          (flatten path rest)

end

/-- Modelled from the spec: `dict(flatten(document, []))` for the corrected
flattener. -/
def flattenRun (doc : List (String × Value)) : Except PyErr (List (String × Value)) :=
  match flatten [] doc with
  | ⟨items, none⟩ => .ok (pyDict items)
  | ⟨_, some e⟩ => .error e

/-- Modelled from the spec: `format_document` of the corrected flattener. -/
def format_document (doc : List (String × Value)) : Except PyErr (List (String × Value)) :=
  flattenRun doc

end DocumentFlattenerSpec

/-- The example document of the spec's flattening-shape property and of the
`DocumentFlattener` docstring:
`{"a": 2, "b": {"c": {"d": 5}}, "e": [6, 7, 8]}`. -/
def exampleDoc : List (String × Value) :=
  [("a", .vInt 2),
   ("b", .vDict [("c", .vDict [("d", .vInt 5)])]),
   ("e", .vList [.vInt 6, .vInt 7, .vInt 8])]

/-- A document with an object nested inside an array, below the root:
`{"b": {"c": [{"x": 1}]}}`. -/
def arrayNestedDoc : List (String × Value) :=
  [("b", .vDict [("c", .vList [.vDict [("x", .vInt 1)]])])]

/-! ### Helper lemmas -/

theorem strData_append (a b : String) : (a ++ b).data = a.data ++ b.data := rfl

theorem list_isPrefixOf_append (l m : List Char) : l.isPrefixOf (l ++ m) = true :=
  List.isPrefixOf_iff_prefix.mpr (List.prefix_append l m)

theorem pyStartsWith_append_right (a b : String) : pyStartsWith (a ++ b) a = true := by
  show a.data.isPrefixOf (a ++ b).data = true
  rw [strData_append]
  exact list_isPrefixOf_append a.data b.data

theorem pyStartsWith_of_append_left (s p q : String)
    (h : pyStartsWith s (p ++ q) = true) : pyStartsWith s p = true := by
  have h' : (p ++ q).data <+: s.data := by
    have := h
    rwa [pyStartsWith, List.isPrefixOf_iff_prefix] at this
  rw [pyStartsWith, List.isPrefixOf_iff_prefix]
  calc p.data <+: p.data ++ q.data := List.prefix_append _ _
    _ = (p ++ q).data := (strData_append p q).symm
    _ <+: s.data := h'

theorem string_append_assoc (a b c : String) : a ++ b ++ c = a ++ (b ++ c) :=
  String.append_assoc a b c

theorem joinPath_append_singleton (path : List String) (k : String) (hp : path ≠ []) :
    joinPath (path ++ [k]) = joinPath path ++ "." ++ k := by
  induction path with
  | nil => exact absurd rfl hp
  | cons x rest ih =>
    cases rest with
    | nil => rfl
    | cons y rest' =>
      have := ih (by simp)
      show joinPath (x :: ((y :: rest') ++ [k])) = _
      calc joinPath (x :: ((y :: rest') ++ [k]))
          = x ++ "." ++ joinPath ((y :: rest') ++ [k]) := rfl
        _ = x ++ "." ++ (joinPath (y :: rest') ++ "." ++ k) := by rw [this]
        _ = x ++ "." ++ joinPath (y :: rest') ++ "." ++ k := by
            rw [string_append_assoc (x ++ "." ++ joinPath (y :: rest')) "." k,
              string_append_assoc (x ++ ".") (joinPath (y :: rest')) ("." ++ k),
              string_append_assoc (joinPath (y :: rest')) "." k]

theorem gen_append_mem {kv : String × Value} (a b : Gen)
    (h : kv ∈ (Gen.append a b).items) : kv ∈ a.items ∨ kv ∈ b.items := by
  rw [Gen.append] at h
  rcases he : a.err with _ | e
  · rw [he] at h
    simpa using List.mem_append.mp h
  · rw [he] at h
    exact Or.inl h

theorem transformFields_drop (k : String) (v : Value) (e : PyErr)
    (hv : DefaultDocumentFormatter.transform_value v = .error e) :
    ∀ (pre post : List (String × Value)),
      DefaultDocumentFormatter.transformFields (pre ++ (k, v) :: post) =
        DefaultDocumentFormatter.transformFields (pre ++ post) := by
  intro pre
  induction pre with
  | nil =>
    intro post
    show DefaultDocumentFormatter.transformFields ((k, v) :: post) = _
    simp [DefaultDocumentFormatter.transformFields, hv]
  | cons hd tl ih =>
    intro post
    obtain ⟨k', v'⟩ := hd
    show DefaultDocumentFormatter.transformFields ((k', v') :: (tl ++ (k, v) :: post)) = _
    simp only [DefaultDocumentFormatter.transformFields]
    cases hv' : DefaultDocumentFormatter.transform_value v' with
    | error e' => simpa using ih post
    | ok nv => simpa using ih post

theorem formatTop_drop (k : String) (v : Value) (e : PyErr)
    (hv : DefaultDocumentFormatter.transform_value v = .error e) :
    ∀ (pre post : List (String × Value)) (st : Option String),
      DefaultDocumentFormatter.formatTop (pre ++ (k, v) :: post) st =
        DefaultDocumentFormatter.formatTop (pre ++ post) st := by
  intro pre
  induction pre with
  | nil =>
    intro post st
    show DefaultDocumentFormatter.formatTop ((k, v) :: post) st = _
    simp [DefaultDocumentFormatter.formatTop, hv]
  | cons hd tl ih =>
    intro post st
    obtain ⟨k', v'⟩ := hd
    show DefaultDocumentFormatter.formatTop ((k', v') :: (tl ++ (k, v) :: post)) st = _
    simp only [DefaultDocumentFormatter.formatTop]
    cases hv' : DefaultDocumentFormatter.transform_value v' with
    | error e' => simp [ih post st]
    | ok nv =>
      simp only []
      cases hst : (if pyStartsWith k' (DataType.toPrefix (DataType.forValue nv)) then st
          else some (DataType.toPrefix (DataType.forValue nv) ++ k')) with
      | none => simp [hst]
      | some nk => simp [hst, ih post _]

theorem nil_isPrefixOf (l : List Char) : ([] : List Char).isPrefixOf l = true := by
  cases l <;> rfl

theorem pyDropAfter_append (p s : String) : pyDropAfter (p ++ s) p = s := by
  show String.mk ((p ++ s).data.drop p.data.length) = s
  rw [strData_append, List.drop_left]

theorem attrGo_cons_pos (t : DataType) (ts : List DataType) (key : String)
    (h : pyStartsWith key (DataType.toPrefix t) = true) :
    DataType.attrGo (t :: ts) key = pyDropAfter key (DataType.toPrefix t) := by
  simp [DataType.attrGo, h]

theorem attrGo_cons_neg (t : DataType) (ts : List DataType) (key : String)
    (h : pyStartsWith key (DataType.toPrefix t) = false) :
    DataType.attrGo (t :: ts) key = DataType.attrGo ts key := by
  simp [DataType.attrGo, h]

theorem isGeoPoint_iff_perm (d : List (String × Value)) :
    DataType.isGeoPoint d = true ↔ (pyKeys d).Perm ["lat", "lon"] := by
  rw [DataType.isGeoPoint]
  simp only [Bool.and_eq_true, beq_iff_eq, List.elem_eq_mem, decide_eq_true_eq]
  constructor
  · rintro ⟨⟨h2, hlat⟩, hlon⟩
    obtain ⟨a, b, hab⟩ := List.length_eq_two.mp h2
    rw [hab] at hlat hlon ⊢
    simp only [List.mem_cons, List.mem_singleton, List.not_mem_nil, or_false] at hlat hlon
    rcases hlat with rfl | rfl
    · rcases hlon with h | rfl
      · exact absurd h (by decide)
      · exact List.Perm.refl _
    · rcases hlon with rfl | h
      · exact List.Perm.swap _ _ _
      · exact absurd h (by decide)
  · intro hperm
    refine ⟨⟨hperm.length_eq, ?_⟩, ?_⟩
    · exact hperm.mem_iff.mpr (show "lat" ∈ ["lat", "lon"] by simp)
    · exact hperm.mem_iff.mpr (show "lon" ∈ ["lat", "lon"] by simp)

theorem flattenSpec_prefixed :
    ∀ (doc : List (String × Value)) (path : List String), path ≠ [] →
      ∀ kv ∈ (DocumentFlattenerSpec.flatten path doc).items,
        pyStartsWith kv.1 (joinPath path ++ ".") = true
  | [], path, hp, kv, hkv => by
    simp [DocumentFlattenerSpec.flatten] at hkv
  | (k, v) :: rest, path, hp, kv, hkv => by
    have hpe : path.isEmpty = false := by
      cases path
      · exact absurd rfl hp
      · rfl
    cases v with
    | vDict d =>
      simp only [DocumentFlattenerSpec.flatten] at hkv
      rcases gen_append_mem _ _ hkv with h | h
      · have hrec := flattenSpec_prefixed d (path ++ [k]) (by simp) kv h
        rw [joinPath_append_singleton path k hp,
          string_append_assoc (joinPath path ++ ".") k "."] at hrec
        exact pyStartsWith_of_append_left kv.1 (joinPath path ++ ".") (k ++ ".") hrec
      · exact flattenSpec_prefixed rest path hp kv h
    | vBool b =>
      simp only [DocumentFlattenerSpec.flatten, hpe, Bool.false_eq_true, if_false] at hkv
      rcases gen_append_mem _ _ hkv with h | h
      · obtain ⟨p, hmem, rfl⟩ := List.mem_map.mp h
        exact pyStartsWith_append_right (joinPath path ++ ".") p.1
      · exact flattenSpec_prefixed rest path hp kv h
    | vInt n =>
      simp only [DocumentFlattenerSpec.flatten, hpe, Bool.false_eq_true, if_false] at hkv
      rcases gen_append_mem _ _ hkv with h | h
      · obtain ⟨p, hmem, rfl⟩ := List.mem_map.mp h
        exact pyStartsWith_append_right (joinPath path ++ ".") p.1
      · exact flattenSpec_prefixed rest path hp kv h
    | vFloat fk =>
      simp only [DocumentFlattenerSpec.flatten, hpe, Bool.false_eq_true, if_false] at hkv
      rcases gen_append_mem _ _ hkv with h | h
      · obtain ⟨p, hmem, rfl⟩ := List.mem_map.mp h
        exact pyStartsWith_append_right (joinPath path ++ ".") p.1
      · exact flattenSpec_prefixed rest path hp kv h
    | vStr s =>
      simp only [DocumentFlattenerSpec.flatten, hpe, Bool.false_eq_true, if_false] at hkv
      rcases gen_append_mem _ _ hkv with h | h
      · obtain ⟨p, hmem, rfl⟩ := List.mem_map.mp h
        exact pyStartsWith_append_right (joinPath path ++ ".") p.1
      · exact flattenSpec_prefixed rest path hp kv h
    | vNone =>
      simp only [DocumentFlattenerSpec.flatten, hpe, Bool.false_eq_true, if_false] at hkv
      rcases gen_append_mem _ _ hkv with h | h
      · obtain ⟨p, hmem, rfl⟩ := List.mem_map.mp h
        exact pyStartsWith_append_right (joinPath path ++ ".") p.1
      · exact flattenSpec_prefixed rest path hp kv h
    | vDatetime t =>
      simp only [DocumentFlattenerSpec.flatten, hpe, Bool.false_eq_true, if_false] at hkv
      rcases gen_append_mem _ _ hkv with h | h
      · obtain ⟨p, hmem, rfl⟩ := List.mem_map.mp h
        exact pyStartsWith_append_right (joinPath path ++ ".") p.1
      · exact flattenSpec_prefixed rest path hp kv h
    | vList xs =>
      simp only [DocumentFlattenerSpec.flatten, hpe, Bool.false_eq_true, if_false] at hkv
      rcases gen_append_mem _ _ hkv with h | h
      · obtain ⟨p, hmem, rfl⟩ := List.mem_map.mp h
        exact pyStartsWith_append_right (joinPath path ++ ".") p.1
      · exact flattenSpec_prefixed rest path hp kv h
termination_by doc _ _ _ _ => sizeOf doc

/-! ### Claim theorems -/

/-- C1, counterexample: on the document
`{"a": 2, "b": {"c": {"d": 5}}, "e": [6, 7, 8]}` the flattening formatter's
`format_document` does not return the mapping the claim states; it raises
`TypeError`, because the root-prefix line concatenates the uncalled bound
method `DataType.prefix` with the key string. -/
theorem C1_counterexample :
    DocumentFlattener.format_document exampleDoc = .error .typeError
    ∧ DocumentFlattener.format_document exampleDoc ≠
        .ok [("long_a", .vInt 2), ("b.c.d", .vInt 5), ("e.0", .vInt 6),
             ("e.1", .vInt 7), ("e.2", .vInt 8)] :=
  ⟨rfl, fun h => nomatch h⟩

/-- C1, amended: the shipped flattener raises `TypeError` on the example
document; with the root-prefix line corrected to call the method
(`DataType.forValue(new_v).prefix()`), `format_document` returns exactly
`{"long_a": 2, "b.c.d": 5, "long_e.0": 6, "long_e.1": 7, "long_e.2": 8}`:
nested keys are bare dot-joined paths, but root-level array elements also
receive the type prefix, unlike the bare `e.N` keys the claim states. -/
theorem C1_amended_flatten_example :
    DocumentFlattener.format_document exampleDoc = .error .typeError
    ∧ DocumentFlattenerSpec.format_document exampleDoc =
        .ok [("long_a", .vInt 2), ("b.c.d", .vInt 5), ("long_e.0", .vInt 6),
             ("long_e.1", .vInt 7), ("long_e.2", .vInt 8)] :=
  ⟨rfl, rfl⟩

/-- C2, counterexample: `DocumentFlattener.transform_element` does not catch
`ValueError`, so in flattening mode a NaN value makes the whole
`format_document` raise instead of dropping the field: both at the top
level and nested below an object. -/
theorem C2_counterexample :
    DocumentFlattener.format_document [("a", .vFloat .nan)] = .error (.valueError "nan")
    ∧ DocumentFlattener.format_document [("b", .vDict [("a", .vFloat .nan)]), ("c", .vInt 3)] =
        .error (.valueError "nan") :=
  ⟨rfl, rfl⟩

/-- C2, amended: in the non-flattening mode the claim holds: a field whose
value fails `transform_value` with a `ValueError` is dropped (with a logged
warning) and the rest of the document is formatted exactly as if the field
were absent, both at the top level of `format_document` and inside nested
dicts; in flattening mode, however, `DocumentFlattener.transform_element`
does not catch the error, so it propagates out of `format_document`. -/
theorem C2_amended_invalid_field_policy :
    (∀ (pre post : List (String × Value)) (k : String) (v : Value) (e : PyErr),
        DefaultDocumentFormatter.transform_value v = .error e →
        DefaultDocumentFormatter.format_document (pre ++ (k, v) :: post) =
          DefaultDocumentFormatter.format_document (pre ++ post))
    ∧ (∀ (pre post : List (String × Value)) (k : String) (v : Value) (e : PyErr),
        DefaultDocumentFormatter.transform_value v = .error e →
        DefaultDocumentFormatter.transformFields (pre ++ (k, v) :: post) =
          DefaultDocumentFormatter.transformFields (pre ++ post))
    ∧ DocumentFlattener.format_document [("a", .vFloat .nan)] = .error (.valueError "nan") := by
  refine ⟨fun pre post k v e hv => ?_, fun pre post k v e hv => transformFields_drop k v e hv pre post, rfl⟩
  simp [DefaultDocumentFormatter.format_document, formatTop_drop k v e hv pre post none]

/-- C2, witness: instantiating the amended theorem at
`{"x": 1, "b": NaN, "y": 2}`. -/
theorem C2_amended_witness :
    DefaultDocumentFormatter.transform_value (.vFloat .nan) = .error (.valueError "nan")
    ∧ DefaultDocumentFormatter.format_document
        ([("x", .vInt 1)] ++ ("b", .vFloat .nan) :: [("y", .vInt 2)]) =
      DefaultDocumentFormatter.format_document ([("x", .vInt 1)] ++ [("y", .vInt 2)]) :=
  ⟨rfl, C2_amended_invalid_field_policy.1 [("x", .vInt 1)] [("y", .vInt 2)] "b"
    (.vFloat .nan) (.valueError "nan") rfl⟩

/-- C3, code bug: when the top-level key already starts with the computed
prefix the source never assigns `new_key`, so instead of emitting the key
unchanged the kernel raises `UnboundLocalError` (first such iteration) or
reuses the stale `new_key` of the previous iteration: `{"long_foo": 7}` and
`{"a": None}` raise, and `{"a": 1, "long_b": 2}` yields `{"long_a": 2}`,
silently overwriting the first field and losing the second key. -/
theorem C3_unchanged_key_code_bug :
    DefaultDocumentFormatter.format_document [("long_foo", .vInt 7)] = .error .unboundLocal
    ∧ DefaultDocumentFormatter.format_document [("a", .vNone)] = .error .unboundLocal
    ∧ DefaultDocumentFormatter.format_document [("a", .vInt 1), ("long_b", .vInt 2)] =
        .ok [("long_a", .vInt 2)] :=
  ⟨rfl, rfl, rfl⟩

/-- C4, counterexample: for `{"b": {"c": [{"x": 1}]}}` the claim predicts the
single output entry `("b.c.0.x", 1)`; the shipped code instead raises
`TypeError` (the dict inside the array re-enters `format_document` at its
root, hitting the defective prefix line), and with that line corrected the
entry comes out type-prefixed as `("b.c.0.long_x", 1)`. -/
theorem C4_counterexample :
    DocumentFlattener.format_document arrayNestedDoc = .error .typeError
    ∧ DocumentFlattenerSpec.format_document arrayNestedDoc = .ok [("b.c.0.long_x", .vInt 1)]
    ∧ DocumentFlattenerSpec.format_document arrayNestedDoc ≠ .ok [("b.c.0.x", .vInt 1)] := by
  refine ⟨rfl, rfl, fun hcontra => ?_⟩
  have h1 : ([("b.c.0.long_x", Value.vInt 1)] : List (String × Value)) =
      [("b.c.0.x", .vInt 1)] := by
    have := (rfl : DocumentFlattenerSpec.format_document arrayNestedDoc =
      .ok [("b.c.0.long_x", .vInt 1)])
    rw [this] at hcontra
    injection hcontra
  have h2 : ("b.c.0.long_x" : String) = "b.c.0.x" := by
    injection h1 with hhd _
    exact congrArg Prod.fst hhd
  exact absurd h2 (by decide)

/-- C4, amended: at any non-empty accumulated path every emitted key extends
the dot-joined path (no root-style prefixing happens in the non-top branch
of `flatten`), but a dict nested directly inside an array is formatted by a
recursive root-level `format_document` call, so its fields do receive a
type prefix (key `b.c.0.long_x` in the corrected flattener), and in the
shipped code that recursive root-level pass raises `TypeError`. -/
theorem C4_amended_nested_keys :
    (∀ (doc : List (String × Value)) (path : List String), path ≠ [] →
        ∀ kv ∈ (DocumentFlattenerSpec.flatten path doc).items,
          pyStartsWith kv.1 (joinPath path ++ ".") = true)
    ∧ DocumentFlattener.format_document arrayNestedDoc = .error .typeError
    ∧ DocumentFlattenerSpec.format_document arrayNestedDoc = .ok [("b.c.0.long_x", .vInt 1)] :=
  ⟨flattenSpec_prefixed, rfl, rfl⟩

/-- C4, witness: instantiating the amended theorem at path `["b"]` and
document `{"c": 1}`, whose single emitted pair is `("b.c", 1)`. -/
theorem C4_amended_witness :
    (["b"] : List String) ≠ []
    ∧ ("b.c", Value.vInt 1) ∈ (DocumentFlattenerSpec.flatten ["b"] [("c", .vInt 1)]).items
    ∧ pyStartsWith "b.c" (joinPath ["b"] ++ ".") = true := by
  refine ⟨by simp, ?_, ?_⟩
  · show ("b.c", Value.vInt 1) ∈ [("b.c", Value.vInt 1)]
    simp
  · exact C4_amended_nested_keys.1 [("c", .vInt 1)] ["b"] (by simp) ("b.c", .vInt 1)
      (show ("b.c", Value.vInt 1) ∈ [("b.c", Value.vInt 1)] by simp)

/-- C5, counterexample: `fromStr` is keyed by the canonical names, not by the
underscore-suffixed prefixes, so mapping `BOOL`'s prefix `"bool_"` back
yields `UNKNOWN`, not `BOOL`. -/
theorem C5_counterexample : DataType.fromStr (DataType.toPrefix .BOOL) ≠ .BOOL := by
  decide

/-- C5, amended: the round trip holds through the canonical name:
`fromStr (str t) = t` for every tag (with `UNKNOWN` mapping to and from the
empty string), while feeding a non-`UNKNOWN` tag's key-prefix into
`fromStr` falls through to the `UNKNOWN` default. -/
theorem C5_amended_roundtrip :
    (∀ t : DataType, DataType.fromStr (DataType.toStr t) = t)
    ∧ (∀ t : DataType, t ≠ .UNKNOWN → DataType.fromStr (DataType.toPrefix t) = .UNKNOWN) := by
  constructor
  · intro t
    cases t <;> rfl
  · intro t ht
    cases t <;> rfl

/-- C5, witness: instantiating the amended theorem at `BOOL`. -/
theorem C5_amended_witness :
    DataType.BOOL ≠ DataType.UNKNOWN
    ∧ DataType.fromStr (DataType.toPrefix .BOOL) = .UNKNOWN :=
  ⟨by decide, C5_amended_roundtrip.2 .BOOL (by decide)⟩

/-- C6: `DataType.forValue` is a total Lean function (the source's bare
`except` turns every internal failure into `UNKNOWN`); an empty array
classifies as `UNKNOWN` (the `IndexError` of `value[0]` is caught), a
non-empty array classifies as its first element does, and a value of an
unmapped runtime type (here `None`) classifies as `UNKNOWN`. -/
theorem C6_classify_total :
    (∀ (v : Value) (vs : List Value),
        DataType.forValue (.vList (v :: vs)) = DataType.forValue v)
    ∧ DataType.forValue (.vList []) = .UNKNOWN
    ∧ DataType.forValue .vNone = .UNKNOWN :=
  ⟨fun _ _ => rfl, rfl, rfl⟩

/-- C7: stripping recovers the bare key: for every tag other than `UNKNOWN`
and every suffix `s`, `attributeNameFromKey (prefix t ++ s) = s`; and a key
that starts with no non-empty known prefix is returned unchanged (via the
always-matching empty `UNKNOWN` prefix). -/
theorem C7_roundtrip_strip :
    (∀ t : DataType, t ≠ .UNKNOWN →
        ∀ s : String, DataType.attributeNameFromKey (DataType.toPrefix t ++ s) = s)
    ∧ (∀ key : String,
        (∀ t : DataType, t ≠ .UNKNOWN → pyStartsWith key (DataType.toPrefix t) = false) →
        DataType.attributeNameFromKey key = key) := by
  constructor
  · intro t ht s
    cases t with
    | BOOL =>
      show DataType.attrGo DataType.all _ = s
      rw [DataType.all,
        attrGo_cons_pos .BOOL _ (DataType.toPrefix .BOOL ++ s)
          (list_isPrefixOf_append "bool_".data s.data)]
      exact pyDropAfter_append _ s
    | LONG =>
      show DataType.attrGo DataType.all _ = s
      rw [DataType.all,
        attrGo_cons_neg .BOOL _ (DataType.toPrefix .LONG ++ s) rfl,
        attrGo_cons_pos .LONG _ (DataType.toPrefix .LONG ++ s)
          (list_isPrefixOf_append "long_".data s.data)]
      exact pyDropAfter_append _ s
    | DOUBLE =>
      show DataType.attrGo DataType.all _ = s
      rw [DataType.all,
        attrGo_cons_neg .BOOL _ (DataType.toPrefix .DOUBLE ++ s) rfl,
        attrGo_cons_neg .LONG _ (DataType.toPrefix .DOUBLE ++ s) rfl,
        attrGo_cons_pos .DOUBLE _ (DataType.toPrefix .DOUBLE ++ s)
          (list_isPrefixOf_append "double_".data s.data)]
      exact pyDropAfter_append _ s
    | STRING =>
      show DataType.attrGo DataType.all _ = s
      rw [DataType.all,
        attrGo_cons_neg .BOOL _ (DataType.toPrefix .STRING ++ s) rfl,
        attrGo_cons_neg .LONG _ (DataType.toPrefix .STRING ++ s) rfl,
        attrGo_cons_neg .DOUBLE _ (DataType.toPrefix .STRING ++ s) rfl,
        attrGo_cons_pos .STRING _ (DataType.toPrefix .STRING ++ s)
          (list_isPrefixOf_append "string_".data s.data)]
      exact pyDropAfter_append _ s
    | DICT =>
      show DataType.attrGo DataType.all _ = s
      rw [DataType.all,
        attrGo_cons_neg .BOOL _ (DataType.toPrefix .DICT ++ s) rfl,
        attrGo_cons_neg .LONG _ (DataType.toPrefix .DICT ++ s) rfl,
        attrGo_cons_neg .DOUBLE _ (DataType.toPrefix .DICT ++ s) rfl,
        attrGo_cons_neg .STRING _ (DataType.toPrefix .DICT ++ s) rfl,
        attrGo_cons_pos .DICT _ (DataType.toPrefix .DICT ++ s)
          (list_isPrefixOf_append "object_".data s.data)]
      exact pyDropAfter_append _ s
    | DATETIME =>
      show DataType.attrGo DataType.all _ = s
      rw [DataType.all,
        attrGo_cons_neg .BOOL _ (DataType.toPrefix .DATETIME ++ s) rfl,
        attrGo_cons_neg .LONG _ (DataType.toPrefix .DATETIME ++ s) rfl,
        attrGo_cons_neg .DOUBLE _ (DataType.toPrefix .DATETIME ++ s) rfl,
        attrGo_cons_neg .STRING _ (DataType.toPrefix .DATETIME ++ s) rfl,
        attrGo_cons_neg .DICT _ (DataType.toPrefix .DATETIME ++ s) rfl,
        attrGo_cons_pos .DATETIME _ (DataType.toPrefix .DATETIME ++ s)
          (list_isPrefixOf_append "datetime_".data s.data)]
      exact pyDropAfter_append _ s
    | GEOPOINT =>
      show DataType.attrGo DataType.all _ = s
      rw [DataType.all,
        attrGo_cons_neg .BOOL _ (DataType.toPrefix .GEOPOINT ++ s) rfl,
        attrGo_cons_neg .LONG _ (DataType.toPrefix .GEOPOINT ++ s) rfl,
        attrGo_cons_neg .DOUBLE _ (DataType.toPrefix .GEOPOINT ++ s) rfl,
        attrGo_cons_neg .STRING _ (DataType.toPrefix .GEOPOINT ++ s) rfl,
        attrGo_cons_neg .DICT _ (DataType.toPrefix .GEOPOINT ++ s) rfl,
        attrGo_cons_neg .DATETIME _ (DataType.toPrefix .GEOPOINT ++ s) rfl,
        attrGo_cons_pos .GEOPOINT _ (DataType.toPrefix .GEOPOINT ++ s)
          (list_isPrefixOf_append "geopoint_".data s.data)]
      exact pyDropAfter_append _ s
    | UNKNOWN => exact absurd rfl ht
  · intro key h
    show DataType.attrGo DataType.all key = key
    rw [DataType.all,
      attrGo_cons_neg .BOOL _ key (h .BOOL (by decide)),
      attrGo_cons_neg .LONG _ key (h .LONG (by decide)),
      attrGo_cons_neg .DOUBLE _ key (h .DOUBLE (by decide)),
      attrGo_cons_neg .STRING _ key (h .STRING (by decide)),
      attrGo_cons_neg .DICT _ key (h .DICT (by decide)),
      attrGo_cons_neg .DATETIME _ key (h .DATETIME (by decide)),
      attrGo_cons_neg .GEOPOINT _ key (h .GEOPOINT (by decide)),
      attrGo_cons_pos .UNKNOWN _ key (nil_isPrefixOf key.data)]
    show String.mk (key.data.drop 0) = key
    rw [List.drop_zero]

/-- C7, witness: instantiating the round trip at `LONG` and suffix `"name"`,
and the unchanged-key direction at `"plain"`. -/
theorem C7_witness :
    DataType.LONG ≠ DataType.UNKNOWN
    ∧ DataType.attributeNameFromKey (DataType.toPrefix .LONG ++ "name") = "name" :=
  ⟨by decide, C7_roundtrip_strip.1 .LONG (by decide) "name"⟩

/-- C8: a dict classifies as `GEOPOINT` exactly when its key list is a
permutation of `["lat", "lon"]` (two keys, any order, values irrelevant),
and otherwise as `DICT`; in particular `{"lat": 1.0, "lon": 2.0}` is a
geo-point and `{"lat": 1.0, "lon": 2.0, "alt": 3.0}` is a plain object. -/
theorem C8_geopoint_shape :
    (∀ d : List (String × Value),
        (DataType.forValue (.vDict d) = .GEOPOINT ↔ (pyKeys d).Perm ["lat", "lon"])
        ∧ (DataType.forValue (.vDict d) = .GEOPOINT ∨ DataType.forValue (.vDict d) = .DICT))
    ∧ DataType.forValue (.vDict [("lat", .vFloat .fin), ("lon", .vFloat .fin)]) = .GEOPOINT
    ∧ DataType.forValue
        (.vDict [("lat", .vFloat .fin), ("lon", .vFloat .fin), ("alt", .vFloat .fin)]) = .DICT := by
  refine ⟨fun d => ⟨?_, ?_⟩, rfl, rfl⟩
  · constructor
    · intro h
      rw [show DataType.forValue (.vDict d) = DataType.typeForDictValue d from rfl,
        DataType.typeForDictValue] at h
      by_cases hg : DataType.isGeoPoint d = true
      · exact (isGeoPoint_iff_perm d).mp hg
      · rw [if_neg hg] at h
        exact absurd h (by decide)
    · intro hperm
      rw [show DataType.forValue (.vDict d) = DataType.typeForDictValue d from rfl,
        DataType.typeForDictValue, if_pos ((isGeoPoint_iff_perm d).mpr hperm)]
  · rw [show DataType.forValue (.vDict d) = DataType.typeForDictValue d from rfl,
      DataType.typeForDictValue]
    by_cases hg : DataType.isGeoPoint d = true
    · rw [if_pos hg]
      exact Or.inl rfl
    · rw [if_neg hg]
      exact Or.inr rfl

/-- C9: booleans are `int` instances in Python, so `transform_value` routes
them through the numeric branch; `isnan`/`isinf` are false on them, so both
`True` and `False` pass through unchanged as booleans, never reaching the
stringify fallback. -/
theorem C9_bool_passthrough :
    ∀ b : Bool, DefaultDocumentFormatter.transform_value (.vBool b) = .ok (.vBool b) :=
  fun _ => rfl
